import Mathlib

set_option maxHeartbeats 1000000

/-!
Shallow embedding of the goscript core: the runtime value universe
(vm/src/value.rs) and the interface-coercion / identifier-resolution parts
of the code generator (codegen/src/codegen.rs), together with theorems
settling the specification claims about them.

Machine integers are modelled as `Int` (signed values in two's-complement
range, unsigned values in `[0, 2^w)`) or `Nat`; overflow is made explicit
with `% 2^w`.  IEEE-754 floats are modelled by their bit patterns (`Nat`),
which is enough to express the ordered-float equality and the bit hashing
the source performs.  `Rc` allocations are modelled by numeric identities
handed out by a counter that stands for the GC registrar.
-/

namespace Goscript

/-- The `ValueType` tag enumeration used by instructions (vm/src/instruction.rs,
reproduced from the spec's closed list in section 3). -/
inductive ValueType where
  | Nil | Bool | Int | Int8 | Int16 | Int32 | Int64
  | Uint | UintPtr | Uint8 | Uint16 | Uint32 | Uint64
  | Float32 | Float64 | Complex64 | Complex128
  | Str | Array | Pointer | Closure | Slice | Map | Interface
  | Struct | Channel | Function | Package | Metadata | Named
  | FlagA | FlagB | FlagC | FlagD
  deriving DecidableEq, Repr

/-- IEEE-754 binary64: NaN iff the exponent field (bits 62-52) is all ones
and the mantissa field (bits 51-0) is nonzero. -/
def f64IsNan (bits : Nat) : Bool :=
  (bits / 2 ^ 52) % 2 ^ 11 == 2 ^ 11 - 1 && bits % 2 ^ 52 != 0

/-- IEEE-754 binary64: a zero (of either sign) iff all bits except the sign
bit are clear. -/
def f64IsZero (bits : Nat) : Bool :=
  bits % 2 ^ 63 == 0

/-- Equality of `ordered_float::OrderedFloat<f64>` values: every NaN equals
every NaN; otherwise IEEE `==`, under which two distinct bit patterns are
equal exactly when both are zeros. -/
def f64Eq (a b : Nat) : Bool :=
  if f64IsNan a || f64IsNan b then f64IsNan a && f64IsNan b
  else a == b || (f64IsZero a && f64IsZero b)

/-- IEEE-754 binary32 NaN test. -/
def f32IsNan (bits : Nat) : Bool :=
  (bits / 2 ^ 23) % 2 ^ 8 == 2 ^ 8 - 1 && bits % 2 ^ 23 != 0

/-- IEEE-754 binary32 zero test (either sign). -/
def f32IsZero (bits : Nat) : Bool :=
  bits % 2 ^ 31 == 0

/-- Equality of `ordered_float::OrderedFloat<f32>` values. -/
def f32Eq (a b : Nat) : Bool :=
  if f32IsNan a || f32IsNan b then f32IsNan a && f32IsNan b
  else a == b || (f32IsZero a && f32IsZero b)

/-- The tagged runtime value `GosValue` (vm/src/value.rs).  Payload notes:
`GosMetadata` handles are opaque `Nat`s; `Str` carries its byte content
(`StringObj` is an immutable shared byte sequence); the `Rc`-backed
composites carry the numeric identity of their `Rc` wrapper (which also
identifies the refcount cell allocated next to the object) plus the content
needed by the operations under study; `Interface` carries its metadata and
the optional underlying value (`IfaceUnderlying::None` is `none`). -/
inductive GosValue where
  | Nil (m : Nat)
  | Bool (b : Bool)
  | Int (i : Int)
  | Int8 (i : Int)
  | Int16 (i : Int)
  | Int32 (i : Int)
  | Int64 (i : Int)
  | Uint (u : Nat)
  | UintPtr (u : Nat)
  | Uint8 (u : Nat)
  | Uint16 (u : Nat)
  | Uint32 (u : Nat)
  | Uint64 (u : Nat)
  | Float32 (bits : Nat)
  | Float64 (bits : Nat)
  | Complex64 (re im : Nat)
  | Complex128 (re im : Nat)
  | Function (k : Nat)
  | Package (k : Nat)
  | Metadata (m : Nat)
  | Str (bytes : List Nat)
  | Array (id : Nat) (elems : List GosValue)
  | Pointer (p : Nat)
  | Closure (id : Nat)
  | Slice (id : Nat) (elems : List GosValue) (isNil : Bool)
  | Map (id : Nat) (entries : List (GosValue × GosValue)) (dval : GosValue)
      (isNil : Bool)
  | Interface (meta : Nat) (under : Option GosValue)
  | Struct (id : Nat) (fields : List GosValue)
  | Channel (id : Nat)
  | Named (inner : GosValue) (meta : Nat)

/-- `GosValue::is_nil`. -/
def GosValue.is_nil (v : GosValue) :=
  match v with
  | .Nil _ => true
  | _ => false

/-- `GosValue::equals_nil`.  The `Interface` arm delegates to
`InterfaceObj::is_nil`, i.e. the underlying is `IfaceUnderlying::None`. -/
def GosValue.equals_nil (v : GosValue) :=
  match v with
  | .Nil _ => true
  | .Named w _ => w.is_nil
  | .Slice _ _ n => n
  | .Map _ _ _ n => n
  | .Interface _ u => u.isNone
  | _ => false

/-- `GosValue::typ`. -/
def GosValue.typ : GosValue → ValueType
  | .Nil _ => .Nil
  | .Bool _ => .Bool
  | .Int _ => .Int
  | .Int8 _ => .Int8
  | .Int16 _ => .Int16
  | .Int32 _ => .Int32
  | .Int64 _ => .Int64
  | .Uint _ => .Uint
  | .UintPtr _ => .UintPtr
  | .Uint8 _ => .Uint8
  | .Uint16 _ => .Uint16
  | .Uint32 _ => .Uint32
  | .Uint64 _ => .Uint64
  | .Float32 _ => .Float32
  | .Float64 _ => .Float64
  | .Complex64 _ _ => .Complex64
  | .Complex128 _ _ => .Complex128
  | .Str _ => .Str
  | .Array _ _ => .Array
  | .Pointer _ => .Pointer
  | .Closure _ => .Closure
  | .Slice _ _ _ => .Slice
  | .Map _ _ _ _ => .Map
  | .Interface _ _ => .Interface
  | .Struct _ _ => .Struct
  | .Channel _ => .Channel
  | .Function _ => .Function
  | .Package _ => .Package
  | .Metadata _ => .Metadata
  | .Named _ _ => .Named

/-- `i as usize` for a signed machine integer: two's-complement
reinterpretation into `[0, 2^64)`. -/
def usizeOfInt (i : Int) : Nat := (i % (2 ^ 64 : Int)).toNat

/-- `i as isize` for a `usize`: two's-complement reinterpretation. -/
def isizeOfUsize (u : Nat) : Int :=
  if u < 2 ^ 63 then (u : Int) else (u : Int) - 2 ^ 64

/-- `GosValue::as_index` — casts any integer variant to `usize`;
`unreachable!()` on every other variant is modelled as `none`. -/
def GosValue.as_index : GosValue → Option Nat
  | .Int i => some (usizeOfInt i)
  | .Int8 i => some (usizeOfInt i)
  | .Int16 i => some (usizeOfInt i)
  | .Int32 i => some (usizeOfInt i)
  | .Int64 i => some (usizeOfInt i)
  | .Uint u => some u
  | .Uint8 u => some u
  | .Uint16 u => some u
  | .Uint32 u => some u
  | .Uint64 u => some u
  | _ => none

/-- Outcome of a fallible runtime operation: `RuntimeResult` plus a
distinguished `panic` for the source's `unreachable!()` branches. -/
inductive RtResult where
  | ok (v : GosValue)
  | err (msg : String)
  | panic

mutual

/-- `PartialEq for GosValue` (vm/src/value.rs), with the source's arms
grouped by the left operand's constructor (each group keeps the source's
arm order: the diagonal arm first, then the trailing
`(Self::Nil(_), nil) | (nil, Self::Nil(_))` and
`(Self::Interface(iface), val) | (val, Self::Interface(iface))` catch-all
arms via `gosEqFallback`, then `_ => false`).  Delegations to code outside
the excerpt follow the spec: `ArrayObj` equality is deep on the elements,
`StructObj` equality is structural on the fields, `InterfaceObj` equality
compares the underlying values, `PointerObj` equality is modelled on the
opaque pointer identity. -/
def gosEq (a b : GosValue) : Bool :=
  match a with
  | .Nil _ =>
      (match b with
       | .Nil _ => true
       | v => v.equals_nil)
  | .Bool x =>
      (match b with
       | .Bool y => x == y
       | v => gosEqFallback (.Bool x) v)
  | .Int x =>
      (match b with
       | .Int y => x == y
       | v => gosEqFallback (.Int x) v)
  | .Int8 x =>
      (match b with
       | .Int8 y => x == y
       | v => gosEqFallback (.Int8 x) v)
  | .Int16 x =>
      (match b with
       | .Int16 y => x == y
       | v => gosEqFallback (.Int16 x) v)
  | .Int32 x =>
      (match b with
       | .Int32 y => x == y
       | v => gosEqFallback (.Int32 x) v)
  | .Int64 x =>
      (match b with
       | .Int64 y => x == y
       | v => gosEqFallback (.Int64 x) v)
  | .Uint x =>
      (match b with
       | .Uint y => x == y
       | v => gosEqFallback (.Uint x) v)
  | .UintPtr x =>
      (match b with
       | .UintPtr y => x == y
       | v => gosEqFallback (.UintPtr x) v)
  | .Uint8 x =>
      (match b with
       | .Uint8 y => x == y
       | v => gosEqFallback (.Uint8 x) v)
  | .Uint16 x =>
      (match b with
       | .Uint16 y => x == y
       | v => gosEqFallback (.Uint16 x) v)
  | .Uint32 x =>
      (match b with
       | .Uint32 y => x == y
       | v => gosEqFallback (.Uint32 x) v)
  | .Uint64 x =>
      (match b with
       | .Uint64 y => x == y
       | v => gosEqFallback (.Uint64 x) v)
  | .Float32 x =>
      (match b with
       | .Float32 y => f32Eq x y
       | v => gosEqFallback (.Float32 x) v)
  | .Float64 x =>
      (match b with
       | .Float64 y => f64Eq x y
       | v => gosEqFallback (.Float64 x) v)
  | .Complex64 xr xi =>
      (match b with
       | .Complex64 yr yi => f32Eq xr yr && f32Eq xi yi
       | v => gosEqFallback (.Complex64 xr xi) v)
  | .Complex128 xr xi =>
      (match b with
       | .Complex128 yr yi => f64Eq xr yr && f64Eq xi yi
       | v => gosEqFallback (.Complex128 xr xi) v)
  | .Function x =>
      (match b with
       | .Function y => x == y
       | v => gosEqFallback (.Function x) v)
  | .Package x =>
      (match b with
       | .Package y => x == y
       | v => gosEqFallback (.Package x) v)
  | .Metadata x =>
      (match b with
       | .Metadata y => x == y
       | v => gosEqFallback (.Metadata x) v)
  | .Str x =>
      (match b with
       | .Str y => x == y
       | v => gosEqFallback (.Str x) v)
  | .Array id xs =>
      (match b with
       | .Array _ ys => gosEqList xs ys
       | v => gosEqFallback (.Array id xs) v)
  | .Pointer x =>
      (match b with
       | .Pointer y => x == y
       | v => gosEqFallback (.Pointer x) v)
  | .Closure x =>
      (match b with
       | .Closure y => x == y
       | v => gosEqFallback (.Closure x) v)
  | .Slice x es n =>
      (match b with
       | .Slice y _ _ => x == y
       | v => gosEqFallback (.Slice x es n) v)
  | .Map x es d n =>
      (match b with
       | .Map y _ _ _ => x == y
       | v => gosEqFallback (.Map x es d n) v)
  | .Interface m u =>
      (match b with
       | .Interface _ none =>
           (match u with
            | none => true
            | some _ => false)
       | .Interface _ (some y) =>
           (match u with
            | some x => gosEq x y
            | none => false)
       | .Nil _ => (GosValue.Interface m u).equals_nil
       | v =>
           (match u with
            | some w => gosEq w v
            | none => false))
  | .Struct id xs =>
      (match b with
       | .Struct _ ys => gosEqList xs ys
       | v => gosEqFallback (.Struct id xs) v)
  | .Channel x =>
      (match b with
       | .Channel y => x == y
       | v => gosEqFallback (.Channel x) v)
  | .Named x m =>
      (match b with
       | .Named y _ => gosEq x y
       | v => gosEqFallback (.Named x m) v)
termination_by sizeOf a + sizeOf b + 1
decreasing_by all_goals (simp_wf <;> omega)

/-- The source's trailing catch-all arms for a left operand `a` whose
diagonal arm did not match: against `Nil` the result is `a.equals_nil`;
against an interface the interface's underlying value is compared to `a`
(`none` underlying gives `false`); every other pairing is the final
`_ => false`. -/
def gosEqFallback (a b : GosValue) : Bool :=
  match b with
  | .Nil _ => a.equals_nil
  | .Interface _ (some w) => gosEq w a
  | .Interface _ none => false
  | _ => false
termination_by sizeOf a + sizeOf b
decreasing_by all_goals (simp_wf <;> omega)

/-- Element-wise equality of value vectors (`Vec<GosValue>` equality). -/
def gosEqList : List GosValue → List GosValue → Bool
  | [], [] => true
  | x :: xs, y :: ys => gosEq x y && gosEqList xs ys
  | _, _ => false
termination_by xs ys => sizeOf xs + sizeOf ys + 1
decreasing_by all_goals (simp_wf <;> omega)

end

mutual

/-- `Hash for GosValue`: the stream of primitive data the value writes to
the hasher; the `unreachable!()` fallback (non-hashable variants) is
`none`.  Two values receive the same hash exactly when they write the same
stream.  Delegations outside the excerpt follow the spec: arrays and
structs hash their contents, an interface hashes its underlying value. -/
def gosHash : GosValue → Option (List Nat)
  | .Bool b => some [b.toNat]
  | .Int i => some [usizeOfInt i]
  | .Int8 i => some [usizeOfInt i]
  | .Int16 i => some [usizeOfInt i]
  | .Int32 i => some [usizeOfInt i]
  | .Int64 i => some [usizeOfInt i]
  | .Uint u => some [u]
  | .UintPtr u => some [u]
  | .Uint8 u => some [u]
  | .Uint16 u => some [u]
  | .Uint32 u => some [u]
  | .Uint64 u => some [u]
  | .Float32 bits => some [bits]
  | .Float64 bits => some [bits]
  | .Str s => some s
  | .Array _ xs => gosHashList xs
  | .Complex64 re im => some [re, im]
  | .Complex128 re im => some [re, im]
  | .Struct _ fs => gosHashList fs
  | .Interface _ (some w) => gosHash w
  | .Interface _ none => some [0]
  | .Pointer p => some [p]
  | .Named v _ => gosHash v
  | _ => none
termination_by v => sizeOf v
decreasing_by all_goals (simp_wf <;> omega)

/-- Concatenated hash stream of a value vector. -/
def gosHashList : List GosValue → Option (List Nat)
  | [] => some []
  | x :: xs =>
      match gosHash x, gosHashList xs with
      | some h, some hs => some (h ++ hs)
      | _, _ => none
termination_by xs => sizeOf xs
decreasing_by all_goals (simp_wf <;> omega)

end

/-- `MapObj::get` modelled from the spec: a hash table from value to value
with a default zero value returned on a missing key. -/
def mapGet (entries : List (GosValue × GosValue)) (dval : GosValue) (k : GosValue) : GosValue :=
  match entries.find? (fun p => gosEq p.1 k) with
  | some p => p.2
  | none => dval

/-- `GosValue::load_index` (vm/src/value.rs), arms in source order:
`Map`, `Slice`, `Str`, `Array`, then `unreachable!()`.  Note the `Str` arm
produces `GosValue::Int((*x).into())`. -/
def GosValue.load_index : GosValue → GosValue → RtResult
  | .Map _ entries dval _, ind => .ok (mapGet entries dval ind)
  | .Slice _ elems _, ind =>
      match ind.as_index with
      | some index =>
          match elems.get? index with
          | some x => .ok x
          | none => .err ("index " ++ toString index ++ " out of range")
      | none => .panic
  | .Str s, ind =>
      match ind.as_index with
      | some index =>
          match s.get? index with
          | some x => .ok (.Int (Int.ofNat x))
          | none => .err ("index " ++ toString index ++ " out of range")
      | none => .panic
  | .Array _ elems, ind =>
      match ind.as_index with
      | some index =>
          match elems.get? index with
          | some x => .ok x
          | none => .err ("index " ++ toString index ++ " out of range")
      | none => .panic
  | _, _ => .panic

/-- `GosValue::load_index_int` (vm/src/value.rs), arms in source order:
`Slice`, `Map`, `Str`, `Array`, `Named` (recursing into the inner value),
then `unreachable!()`. -/
def GosValue.load_index_int : GosValue → Nat → RtResult
  | .Slice _ elems _, i =>
      match elems.get? i with
      | some x => .ok x
      | none => .err ("index " ++ toString i ++ " out of range")
  | .Map _ entries dval _, i => .ok (mapGet entries dval (.Int (isizeOfUsize i)))
  | .Str s, i =>
      match s.get? i with
      | some x => .ok (.Int (Int.ofNat x))
      | none => .err ("index " ++ toString i ++ " out of range")
  | .Array _ elems, i =>
      match elems.get? i with
      | some x => .ok x
      | none => .err ("index " ++ toString i ++ " out of range")
  | .Named n _, i => n.load_index_int i
  | _, _ => .panic

/-- `GosValue::copy_semantic` (vm/src/value.rs).  `ctr` is the next fresh
`Rc` identity handed out by the GC registrar: the `Slice`, `Map` and
`Struct` arms build a new wrapper (`Rc::new((…, Cell::new(0)))`) around a
clone of the object, the `Named` arm recurses, and the wildcard arm is a
plain `clone()` sharing the original allocation. -/
def GosValue.copy_semantic : GosValue → Nat → GosValue × Nat
  | .Slice _ elems n, ctr => (.Slice ctr elems n, ctr + 1)
  | .Map _ entries dval n, ctr => (.Map ctr entries dval n, ctr + 1)
  | .Struct _ fields, ctr => (.Struct ctr fields, ctr + 1)
  | .Named v m, ctr =>
      let r := v.copy_semantic ctr
      (.Named r.1 m, r.2)
  | v, ctr => (v, ctr)

/-- The `Rc` identity of the outermost wrapper, looking through `Named`. -/
def GosValue.topRcId : GosValue → Option Nat
  | .Array id _ => some id
  | .Closure id => some id
  | .Slice id _ _ => some id
  | .Map id _ _ _ => some id
  | .Struct id _ => some id
  | .Channel id => some id
  | .Named v _ => v.topRcId
  | _ => none

/-- Variants handled by `copy_semantic`'s wildcard arm (a plain clone). -/
def GosValue.sharesOnCopy (v : GosValue) :=
  match v with
  | .Slice _ _ _ => false
  | .Map _ _ _ _ => false
  | .Struct _ _ => false
  | .Named _ _ => false
  | _ => true

/-- Unsigned wrap-around modulo `2^w` (the value of a `w`-bit unsigned
machine integer). -/
def wrapU (w : Nat) (x : Int) : Int := x % (2 ^ w : Int)

/-- Signed two's-complement wrap-around into `[-2^(w-1), 2^(w-1))`. -/
def wrapS (w : Nat) (x : Int) : Int :=
  (x + 2 ^ (w - 1)) % (2 ^ w : Int) - 2 ^ (w - 1)

/-- IEEE negation of a binary32: flip the sign bit. -/
def f32Neg (bits : Nat) : Nat := bits ^^^ 2 ^ 31

/-- IEEE negation of a binary64: flip the sign bit. -/
def f64Neg (bits : Nat) : Nat := bits ^^^ 2 ^ 63

/-- The untagged 64-bit union `V64Union` (vm/src/value.rs).  A field write
is modelled by the constructor of that field; reading a different field
than the one written is undefined and surfaces as `none` in the accessors
below.  Unsigned fields hold their value as an `Int` in `[0, 2^w)`. -/
inductive V64Union where
  | nil
  | ubool (b : Bool)
  | int (i : Int)
  | int8 (i : Int)
  | int16 (i : Int)
  | int32 (i : Int)
  | int64 (i : Int)
  | uint (u : Int)
  | uint_ptr (u : Int)
  | uint8 (u : Int)
  | uint16 (u : Int)
  | uint32 (u : Int)
  | uint64 (u : Int)
  | float32 (bits : Nat)
  | float64 (bits : Nat)
  | complex64 (re im : Nat)
  | function (k : Nat)
  | package (k : Nat)
  deriving DecidableEq, Repr

/-- The stack-optimised unboxed value `GosValue64` (vm/src/value.rs): a raw
64-bit cell with no runtime tag. -/
structure GosValue64 where
  data : V64Union
  deriving DecidableEq, Repr

/-- `GosValue64::from_v128` (vm/src/value.rs): scalar variants move their
payload into the corresponding union field; every other variant yields
`None`. -/
def GosValue64.from_v128 : GosValue → Option GosValue64
  | .Bool b => some ⟨.ubool b⟩
  | .Int i => some ⟨.int i⟩
  | .Int8 i => some ⟨.int8 i⟩
  | .Int16 i => some ⟨.int16 i⟩
  | .Int32 i => some ⟨.int32 i⟩
  | .Int64 i => some ⟨.int64 i⟩
  | .Uint u => some ⟨.uint (u : Int)⟩
  | .UintPtr u => some ⟨.uint_ptr (u : Int)⟩
  | .Uint8 u => some ⟨.uint8 (u : Int)⟩
  | .Uint16 u => some ⟨.uint16 (u : Int)⟩
  | .Uint32 u => some ⟨.uint32 (u : Int)⟩
  | .Uint64 u => some ⟨.uint64 (u : Int)⟩
  | .Float32 f => some ⟨.float32 f⟩
  | .Float64 f => some ⟨.float64 f⟩
  | .Complex64 re im => some ⟨.complex64 re im⟩
  | .Function k => some ⟨.function k⟩
  | .Package k => some ⟨.package k⟩
  | _ => none

/-- `GosValue64::get_v128` (vm/src/value.rs): rebuild the tagged value by
reading the union field selected by `t`.  Reading a field other than the
one that was written, or passing a tag outside the scalar set
(`unreachable!()`), is `none`. -/
def GosValue64.get_v128 (v : GosValue64) (t : ValueType) : Option GosValue :=
  match t, v.data with
  | .Bool, .ubool b => some (.Bool b)
  | .Int, .int i => some (.Int i)
  | .Int8, .int8 i => some (.Int8 i)
  | .Int16, .int16 i => some (.Int16 i)
  | .Int32, .int32 i => some (.Int32 i)
  | .Int64, .int64 i => some (.Int64 i)
  | .Uint, .uint u => some (.Uint u.toNat)
  | .UintPtr, .uint_ptr u => some (.UintPtr u.toNat)
  | .Uint8, .uint8 u => some (.Uint8 u.toNat)
  | .Uint16, .uint16 u => some (.Uint16 u.toNat)
  | .Uint32, .uint32 u => some (.Uint32 u.toNat)
  | .Uint64, .uint64 u => some (.Uint64 u.toNat)
  | .Float32, .float32 f => some (.Float32 f)
  | .Float64, .float64 f => some (.Float64 f)
  | .Complex64, .complex64 re im => some (.Complex64 re im)
  | .Function, .function k => some (.Function k)
  | .Package, .package k => some (.Package k)
  | _, _ => none

/-- The macro `binary_op_int_float!` (vm/src/value.rs): dispatch on the
`ValueType`, apply the operation to the matching field of both operands
with `Wrapping` semantics (two's-complement wrap modulo `2^w` per type).
The `Float32`/`Float64` arms perform IEEE arithmetic, which this integer
embedding does not model; they are left out of scope as `none`, as are the
mismatched-field (undefined) and `unreachable!()` arms. -/
def binary_op_int_float (t : ValueType) (a b : V64Union) (op : Int → Int → Int) :
    Option V64Union :=
  match t, a, b with
  | .Int, .int x, .int y => some (.int (wrapS 64 (op x y)))
  | .Int8, .int8 x, .int8 y => some (.int8 (wrapS 8 (op x y)))
  | .Int16, .int16 x, .int16 y => some (.int16 (wrapS 16 (op x y)))
  | .Int32, .int32 x, .int32 y => some (.int32 (wrapS 32 (op x y)))
  | .Int64, .int64 x, .int64 y => some (.int64 (wrapS 64 (op x y)))
  | .Uint, .uint x, .uint y => some (.uint (wrapU 64 (op x y)))
  | .UintPtr, .uint_ptr x, .uint_ptr y => some (.uint_ptr (wrapU 64 (op x y)))
  | .Uint8, .uint8 x, .uint8 y => some (.uint8 (wrapU 8 (op x y)))
  | .Uint16, .uint16 x, .uint16 y => some (.uint16 (wrapU 16 (op x y)))
  | .Uint32, .uint32 x, .uint32 y => some (.uint32 (wrapU 32 (op x y)))
  | .Uint64, .uint64 x, .uint64 y => some (.uint64 (wrapU 64 (op x y)))
  | _, _, _ => none

/-- `GosValue64::binary_op_add` — `Wrapping` addition per type. -/
def GosValue64.binary_op_add (a b : GosValue64) (t : ValueType) : Option GosValue64 :=
  (binary_op_int_float t a.data b.data (fun x y => x + y)).map GosValue64.mk

/-- `GosValue64::binary_op_sub` — `Wrapping` subtraction per type. -/
def GosValue64.binary_op_sub (a b : GosValue64) (t : ValueType) : Option GosValue64 :=
  (binary_op_int_float t a.data b.data (fun x y => x - y)).map GosValue64.mk

/-- `GosValue64::binary_op_mul` — `Wrapping` multiplication per type. -/
def GosValue64.binary_op_mul (a b : GosValue64) (t : ValueType) : Option GosValue64 :=
  (binary_op_int_float t a.data b.data (fun x y => x * y)).map GosValue64.mk

/-- `GosValue64::binary_op_quo` — `Wrapping` division per type: division by
zero panics (`none`); otherwise the truncated quotient wrapped into the
type (the wrap only matters at `MIN / -1`). -/
def GosValue64.binary_op_quo (a b : GosValue64) (t : ValueType) : Option GosValue64 :=
  match t, a.data, b.data with
  | .Int, .int x, .int y => if y = 0 then none else some ⟨.int (wrapS 64 (x.tdiv y))⟩
  | .Int8, .int8 x, .int8 y => if y = 0 then none else some ⟨.int8 (wrapS 8 (x.tdiv y))⟩
  | .Int16, .int16 x, .int16 y => if y = 0 then none else some ⟨.int16 (wrapS 16 (x.tdiv y))⟩
  | .Int32, .int32 x, .int32 y => if y = 0 then none else some ⟨.int32 (wrapS 32 (x.tdiv y))⟩
  | .Int64, .int64 x, .int64 y => if y = 0 then none else some ⟨.int64 (wrapS 64 (x.tdiv y))⟩
  | .Uint, .uint x, .uint y => if y = 0 then none else some ⟨.uint (wrapU 64 (x.tdiv y))⟩
  | .UintPtr, .uint_ptr x, .uint_ptr y =>
      if y = 0 then none else some ⟨.uint_ptr (wrapU 64 (x.tdiv y))⟩
  | .Uint8, .uint8 x, .uint8 y => if y = 0 then none else some ⟨.uint8 (wrapU 8 (x.tdiv y))⟩
  | .Uint16, .uint16 x, .uint16 y => if y = 0 then none else some ⟨.uint16 (wrapU 16 (x.tdiv y))⟩
  | .Uint32, .uint32 x, .uint32 y => if y = 0 then none else some ⟨.uint32 (wrapU 32 (x.tdiv y))⟩
  | .Uint64, .uint64 x, .uint64 y => if y = 0 then none else some ⟨.uint64 (wrapU 64 (x.tdiv y))⟩
  | _, _, _ => none

/-- `checked_shl` on a signed `w`-bit integer: `None` when the shift
amount reaches the bit width, otherwise the bits shifted left (value
wrapped modulo `2^w`). -/
def checkedShlS (w : Nat) (x : Int) (b : Nat) : Option Int :=
  if b < w then some (wrapS w (x * 2 ^ b)) else none

/-- `checked_shl` on an unsigned `w`-bit integer. -/
def checkedShlU (w : Nat) (x : Int) (b : Nat) : Option Int :=
  if b < w then some (wrapU w (x * 2 ^ b)) else none

/-- `checked_shr` on a signed `w`-bit integer: arithmetic shift, i.e.
floor division by `2^b`. -/
def checkedShrS (w : Nat) (x : Int) (b : Nat) : Option Int :=
  if b < w then some (Int.fdiv x (2 ^ b)) else none

/-- `checked_shr` on an unsigned `w`-bit integer: logical shift, which on
the value range `[0, 2^w)` is the same floor division by `2^b`. -/
def checkedShrU (w : Nat) (x : Int) (b : Nat) : Option Int :=
  if b < w then some (Int.fdiv x (2 ^ b)) else none

/-- `GosValue64::binary_op_shl` via the `shift_int!` macro: per-type
`checked_shl(b).unwrap_or(0)` stored back into the operand. -/
def GosValue64.binary_op_shl (a : GosValue64) (b : Nat) (t : ValueType) : Option GosValue64 :=
  match t, a.data with
  | .Int, .int x => some ⟨.int ((checkedShlS 64 x b).getD 0)⟩
  | .Int8, .int8 x => some ⟨.int8 ((checkedShlS 8 x b).getD 0)⟩
  | .Int16, .int16 x => some ⟨.int16 ((checkedShlS 16 x b).getD 0)⟩
  | .Int32, .int32 x => some ⟨.int32 ((checkedShlS 32 x b).getD 0)⟩
  | .Int64, .int64 x => some ⟨.int64 ((checkedShlS 64 x b).getD 0)⟩
  | .Uint, .uint x => some ⟨.uint ((checkedShlU 64 x b).getD 0)⟩
  | .UintPtr, .uint_ptr x => some ⟨.uint_ptr ((checkedShlU 64 x b).getD 0)⟩
  | .Uint8, .uint8 x => some ⟨.uint8 ((checkedShlU 8 x b).getD 0)⟩
  | .Uint16, .uint16 x => some ⟨.uint16 ((checkedShlU 16 x b).getD 0)⟩
  | .Uint32, .uint32 x => some ⟨.uint32 ((checkedShlU 32 x b).getD 0)⟩
  | .Uint64, .uint64 x => some ⟨.uint64 ((checkedShlU 64 x b).getD 0)⟩
  | _, _ => none

/-- `GosValue64::binary_op_shr` via the `shift_int!` macro: per-type
`checked_shr(b).unwrap_or(0)` stored back into the operand. -/
def GosValue64.binary_op_shr (a : GosValue64) (b : Nat) (t : ValueType) : Option GosValue64 :=
  match t, a.data with
  | .Int, .int x => some ⟨.int ((checkedShrS 64 x b).getD 0)⟩
  | .Int8, .int8 x => some ⟨.int8 ((checkedShrS 8 x b).getD 0)⟩
  | .Int16, .int16 x => some ⟨.int16 ((checkedShrS 16 x b).getD 0)⟩
  | .Int32, .int32 x => some ⟨.int32 ((checkedShrS 32 x b).getD 0)⟩
  | .Int64, .int64 x => some ⟨.int64 ((checkedShrS 64 x b).getD 0)⟩
  | .Uint, .uint x => some ⟨.uint ((checkedShrU 64 x b).getD 0)⟩
  | .UintPtr, .uint_ptr x => some ⟨.uint_ptr ((checkedShrU 64 x b).getD 0)⟩
  | .Uint8, .uint8 x => some ⟨.uint8 ((checkedShrU 8 x b).getD 0)⟩
  | .Uint16, .uint16 x => some ⟨.uint16 ((checkedShrU 16 x b).getD 0)⟩
  | .Uint32, .uint32 x => some ⟨.uint32 ((checkedShrU 32 x b).getD 0)⟩
  | .Uint64, .uint64 x => some ⟨.uint64 ((checkedShrU 64 x b).getD 0)⟩
  | _, _ => none

/-- `GosValue64::unary_negate` (vm/src/value.rs).  Signed and float arms
negate (machine negation wraps modulo `2^w`; float negation flips the sign
bit); unsigned arms compute `((!0) ^ x) + 1`, the all-ones XOR followed by
an increment, with the increment wrapping modulo `2^w`. -/
def GosValue64.unary_negate (a : GosValue64) (t : ValueType) : Option GosValue64 :=
  match t, a.data with
  | .Int, .int x => some ⟨.int (wrapS 64 (-x))⟩
  | .Int8, .int8 x => some ⟨.int8 (wrapS 8 (-x))⟩
  | .Int16, .int16 x => some ⟨.int16 (wrapS 16 (-x))⟩
  | .Int32, .int32 x => some ⟨.int32 (wrapS 32 (-x))⟩
  | .Int64, .int64 x => some ⟨.int64 (wrapS 64 (-x))⟩
  | .Float32, .float32 f => some ⟨.float32 (f32Neg f)⟩
  | .Float64, .float64 f => some ⟨.float64 (f64Neg f)⟩
  | .Uint, .uint x => some ⟨.uint (wrapU 64 (((((2 ^ 64 - 1) ^^^ x.toNat : Nat)) : Int) + 1))⟩
  | .Uint8, .uint8 x => some ⟨.uint8 (wrapU 8 (((((2 ^ 8 - 1) ^^^ x.toNat : Nat)) : Int) + 1))⟩
  | .Uint16, .uint16 x =>
      some ⟨.uint16 (wrapU 16 (((((2 ^ 16 - 1) ^^^ x.toNat : Nat)) : Int) + 1))⟩
  | .Uint32, .uint32 x =>
      some ⟨.uint32 (wrapU 32 (((((2 ^ 32 - 1) ^^^ x.toNat : Nat)) : Int) + 1))⟩
  | .Uint64, .uint64 x =>
      some ⟨.uint64 (wrapU 64 (((((2 ^ 64 - 1) ^^^ x.toNat : Nat)) : Int) + 1))⟩
  | _, _ => none

/-- The scalar variants accepted by `GosValue64::from_v128`. -/
def GosValue.isV64Scalar (v : GosValue) :=
  match v with
  | .Bool _ | .Int _ | .Int8 _ | .Int16 _ | .Int32 _ | .Int64 _
  | .Uint _ | .UintPtr _ | .Uint8 _ | .Uint16 _ | .Uint32 _ | .Uint64 _
  | .Float32 _ | .Float64 _ | .Complex64 _ _ | .Function _ | .Package _ => true
  | _ => false

/-- The integer `ValueType`s handled by the V64 integer arithmetic. -/
def isIntVT (t : ValueType) :=
  match t with
  | .Int | .Int8 | .Int16 | .Int32 | .Int64
  | .Uint | .UintPtr | .Uint8 | .Uint16 | .Uint32 | .Uint64 => true
  | _ => false

/-- The unsigned integer `ValueType`s. -/
def isUnsignedVT (t : ValueType) :=
  match t with
  | .Uint | .UintPtr | .Uint8 | .Uint16 | .Uint32 | .Uint64 => true
  | _ => false

/-- Bit width of an integer `ValueType` (`isize`/`usize` are 64-bit). -/
def vtWidth (t : ValueType) : Nat :=
  match t with
  | .Int | .Int64 | .Uint | .UintPtr | .Uint64 => 64
  | .Int8 | .Uint8 => 8
  | .Int16 | .Uint16 => 16
  | .Int32 | .Uint32 => 32
  | _ => 0

/-- Signedness of an integer `ValueType`. -/
def vtSigned (t : ValueType) :=
  match t with
  | .Int | .Int8 | .Int16 | .Int32 | .Int64 => true
  | _ => false

/-- Wrap a mathematical integer into the two's-complement value range of
`t`. -/
def intWrap (t : ValueType) (x : Int) : Int :=
  if vtSigned t then wrapS (vtWidth t) x else wrapU (vtWidth t) x

/-- Maximum representable value of an integer `ValueType`. -/
def vtMax (t : ValueType) : Int :=
  if vtSigned t then 2 ^ (vtWidth t - 1) - 1 else 2 ^ vtWidth t - 1

/-- Minimum representable value of an integer `ValueType`. -/
def vtMin (t : ValueType) : Int :=
  if vtSigned t then -(2 ^ (vtWidth t - 1)) else 0

/-- Build the `V64Union` cell holding `x` in the field of integer type
`t`. -/
def mkV64 (t : ValueType) (x : Int) : GosValue64 :=
  ⟨match t with
   | .Int => .int x
   | .Int8 => .int8 x
   | .Int16 => .int16 x
   | .Int32 => .int32 x
   | .Int64 => .int64 x
   | .Uint => .uint x
   | .UintPtr => .uint_ptr x
   | .Uint8 => .uint8 x
   | .Uint16 => .uint16 x
   | .Uint32 => .uint32 x
   | .Uint64 => .uint64 x
   | _ => .nil⟩

/-! ### Code generator model (codegen/src/codegen.rs)

TC type keys and AST entity/identifier keys are opaque `Nat`s.  The type
checker is an oracle (spec section 6), modelled as a record of functions.
The emitter (spec section 4.4) appends instructions to the current
function's code; only the instructions relevant to the claims are
modelled. -/

/-- `EntIndex` (vm objects): what an identifier resolves to. -/
inductive EntIndex where
  | Const (i : Int)
  | LocalVar (i : Int)
  | UpValue (i : Int)
  | PackageMember (pkg : Nat) (ident : Nat)
  | BuiltInVal (op : Nat)
  | BuiltInType (meta : Nat)
  | Blank
  deriving DecidableEq, Repr

/-- `IndexSelType` (codegen emit): indexing vs struct-field store. -/
inductive IndexSelType where
  | Indexing
  | StructField
  deriving DecidableEq, Repr

/-- `IndexSelInfo` (codegen emit): stack offset, optional constant index,
container type, optional index type, kind. -/
structure IndexSelInfo where
  index : Int
  imm : Option Int
  t1 : ValueType
  t2 : Option ValueType
  sel_type : IndexSelType
  deriving DecidableEq, Repr

/-- `LeftHandSide` (codegen emit): the three store shapes. -/
inductive LeftHandSide where
  | Primitive (e : EntIndex)
  | IndexSelExpr (info : IndexSelInfo)
  | Deref (i : Int)
  deriving DecidableEq, Repr

/-- The emitted instructions relevant here, modelled from spec section 4.4:
`emit_cast` appends a `CAST` carrying (target type, source type, optional
auxiliary type, stack offset, interface index); `emit_store` appends a
`STORE`; `emit_pop` appends a `POP`. -/
inductive Instr where
  | CAST (t0 t1 : ValueType) (t2 : Option ValueType) (rhsIndex : Int) (ifaceIdx : Int)
  | STORE (lhs : LeftHandSide) (rhsIndex : Int) (typ : ValueType)
  | POP (n : Int)
  deriving DecidableEq, Repr

/-- The interface mapping (spec section 4.6): interns
`(iface_tc_type, optional concrete_tc_type)` pairs to a compact index. -/
structure IfaceMapping where
  pairs : List (Nat × Option Nat)
  deriving DecidableEq, Repr

/-- `IfaceMapping::get_index`: return the index of an interned pair,
interning it first when absent. -/
def IfaceMapping.get_index (m : IfaceMapping) (p : Nat × Option Nat) : IfaceMapping × Int :=
  match m.pairs.indexOf? p with
  | some i => (m, (i : Int))
  | none => (⟨m.pairs ++ [p]⟩, (m.pairs.length : Int))

/-- The type-checker oracle consulted by `try_cast_to_iface`
(codegen/src/types.rs): the underlying value type and the direct value
type of a TC type key. -/
structure TypeLookup where
  underlying_value_type_from_tc : Nat → ValueType
  value_type_from_tc : Nat → ValueType

/-- The mutable codegen state touched by `try_cast_to_iface`: the current
function's instruction vector and the interface mapping. -/
structure EmitState where
  code : List Instr
  iface_mapping : IfaceMapping
  deriving DecidableEq, Repr

/-- `CodeGen::try_cast_to_iface` (codegen/src/codegen.rs, lines 901-938):
when the left-hand side's underlying type is an interface and the
right-hand side's underlying type is neither an interface nor nil (a
missing right-hand type means a variadic slice parameter), intern the pair
in the interface mapping and emit
`CAST(Interface, source_type, -, rhs_index, iface_index)`, returning
`Interface`; otherwise emit nothing and return the right-hand side's value
type. -/
def try_cast_to_iface (tl : TypeLookup) (st : EmitState) (lhs rhs : Option Nat)
    (rhs_index : Int) : EmitState × ValueType :=
  match lhs with
  | some t0 =>
      if tl.underlying_value_type_from_tc t0 = ValueType.Interface then
        let cast_typ : Bool × ValueType :=
          match rhs with
          | some t1 =>
              let vt1 := tl.underlying_value_type_from_tc t1
              (decide (vt1 ≠ ValueType.Interface) && decide (vt1 ≠ ValueType.Nil), vt1)
          | none => (true, ValueType.Slice)
        if cast_typ.1 then
          let mi := st.iface_mapping.get_index (t0, rhs)
          (⟨st.code ++ [Instr.CAST ValueType.Interface cast_typ.2 none rhs_index mi.2],
            mi.1⟩,
           ValueType.Interface)
        else
          (st, tl.value_type_from_tc rhs.get!)
      else
        (st, tl.value_type_from_tc rhs.get!)
  | none => (st, tl.value_type_from_tc rhs.get!)

/-- One left-hand side of `gen_assign_def_var` (codegen/src/codegen.rs,
lines 536-547, `Primitive` arm): `try_cast_to_iface` on the pair of TC
types, then `emit_store` with the returned type. -/
def gen_assign_store_primitive (tl : TypeLookup) (st : EmitState) (lhs_t : Option Nat)
    (rhs_t : Nat) (rhs_index : Int) (lhs : LeftHandSide) : EmitState :=
  let r := try_cast_to_iface tl st lhs_t (some rhs_t) rhs_index
  ⟨r.1.code ++ [Instr.STORE lhs rhs_index r.2], r.1.iface_mapping⟩

/-- One result of `visit_stmt_return` (codegen/src/codegen.rs, lines
1767-1787): `try_cast_to_iface` against the signature's result type, then
`emit_store` into result local `i` and `emit_pop(1)`. -/
def gen_return_store (tl : TypeLookup) (st : EmitState) (ret_t expr_t : Nat)
    (i : Int) : EmitState :=
  let r := try_cast_to_iface tl st (some ret_t) (some expr_t) (-1)
  ⟨r.1.code ++ [Instr.STORE (LeftHandSide.Primitive (EntIndex.LocalVar i)) (-1) r.2,
    Instr.POP 1],
   r.1.iface_mapping⟩

/-- `ValueDesc` (vm objects): an upvalue descriptor — defining function
key, slot in that function, value type, open flag. -/
structure ValueDesc where
  func : Nat
  index : Int
  typ : ValueType
  is_up_frame : Bool
  deriving DecidableEq, Repr

/-- The parts of `FunctionVal` used by identifier resolution: the
entity-to-index map, the upvalue descriptor table and its entity keys
(spec section 4.3). -/
structure FunctionVal where
  entities : List (Nat × EntIndex)
  up_ptrs : List ValueDesc
  uv_entities : List (Nat × Int)
  deriving DecidableEq, Repr

/-- A function object with no bindings. -/
def emptyFunctionVal : FunctionVal := ⟨[], [], []⟩

/-- `FunctionVal::entity_index`: look the entity up in the map. -/
def FunctionVal.entity_index (f : FunctionVal) (ent : Nat) : Option EntIndex :=
  (f.entities.find? (fun p => p.1 == ent)).map (fun p => p.2)

/-- Modelled from the spec: `FunctionVal::try_add_upvalue` is not in the
excerpt; per spec sections 4.3 and 4.7 the function object owns "an upvalue
descriptor table" and resolution "return[s] the local upvalue slot", so an
already-registered entity returns its existing slot and a new one appends
the descriptor and maps the entity to the fresh slot. -/
def FunctionVal.try_add_upvalue (f : FunctionVal) (ent : Nat) (desc : ValueDesc) :
    FunctionVal × EntIndex :=
  match f.uv_entities.find? (fun p => p.1 == ent) with
  | some p => (f, EntIndex.UpValue p.2)
  | none =>
      ({ f with
          up_ptrs := f.up_ptrs ++ [desc],
          uv_entities := f.uv_entities ++ [(ent, (f.up_ptrs.length : Int))] },
       EntIndex.UpValue (f.up_ptrs.length : Int))

/-- Modelled from the spec: the `From<EntIndex> for OpIndex` conversion
(`ind.into()`), producing the numeric slot of a binding. -/
def entIndexIntoOp : EntIndex → Int
  | .Const i => i
  | .LocalVar i => i
  | .UpValue i => i
  | _ => 0

/-- The codegen state touched by `resolve_var_ident`: the function table,
the stack of in-progress functions (`func_stack`, package constructor
first, current function last) and the current package key. -/
structure CodeGenState where
  functions : List FunctionVal
  func_stack : List Nat
  pkg_key : Nat
  deriving DecidableEq, Repr

/-- The enclosing-function walk of `resolve_var_ident` (step 2):
`func_stack` without its first element (the package constructor), reversed,
without its new first element (the current function itself); the first
function whose entity map contains the identifier yields the upvalue
descriptor `ValueDesc::new(ifunc, ind.into(), use_type, true)`. -/
def upvalueWalk (st : CodeGenState) (ent : Nat) (use_vt : ValueType) : Option ValueDesc :=
  ((st.func_stack.drop 1).reverse.drop 1).findSome? (fun ifunc =>
    ((st.functions.getD ifunc emptyFunctionVal).entity_index ent).map
      (fun ind => ValueDesc.mk ifunc (entIndexIntoOp ind) use_vt true))

/-- `CodeGen::resolve_var_ident` (codegen/src/codegen.rs, lines 131-167):
1. the current function's entity map; 2. the enclosing-function walk, a hit
adding one upvalue descriptor to the current function via
`try_add_upvalue`; 3. otherwise a package member.  `use_vt` is the oracle
result of `get_use_value_type(ident)`. -/
def resolve_var_ident (st : CodeGenState) (ent : Nat) (ident : Nat) (use_vt : ValueType) :
    CodeGenState × EntIndex :=
  let cur := st.func_stack.getLast!
  let curFunc := st.functions.getD cur emptyFunctionVal
  match curFunc.entity_index ent with
  | some index => (st, index)
  | none =>
      match upvalueWalk st ent use_vt with
      | some uv =>
          let r := curFunc.try_add_upvalue ent uv
          ({ st with functions := st.functions.set cur r.1 }, r.2)
      | none => (st, EntIndex.PackageMember st.pkg_key ident)

/-! ### Concrete fixtures used by the witnesses -/

/-- A type oracle: TC key 0 underlies to an interface, every other key to
`Int`; direct value types are `Int`. -/
def exTypeLookup : TypeLookup :=
  ⟨fun k => if k = 0 then ValueType.Interface else ValueType.Int,
   fun k => if k = 0 then ValueType.Interface else ValueType.Int⟩

/-- An empty emit state. -/
def exEmitState : EmitState := ⟨[], ⟨[]⟩⟩

/-- A codegen state with four nested functions: the package constructor
(key 0), an outer function (key 1) defining entity 7 at local slot 4, an
intermediate function (key 2) and the current function (key 3). -/
def exResolveState : CodeGenState :=
  ⟨[emptyFunctionVal,
    ⟨[(7, EntIndex.LocalVar 4)], [], []⟩,
    emptyFunctionVal,
    emptyFunctionVal],
   [0, 1, 2, 3], 9⟩

/-! ### Helper lemmas -/

/-- Casting the natural `2^w` to `Int` gives the integer `2^w`. -/
theorem cast_two_pow (w : Nat) : ((2 ^ w : Nat) : Int) = (2 : Int) ^ w := by
  push_cast
  ring

/-- XOR with the all-ones mask of width `w` is subtraction from
`2^w - 1`. -/
theorem two_pow_sub_one_xor (w x : Nat) (h : x < 2 ^ w) :
    (2 ^ w - 1) ^^^ x = 2 ^ w - 1 - x := by
  have hx : (BitVec.ofNat w x).toNat = x := by
    simp [BitVec.toNat_ofNat, Nat.mod_eq_of_lt h]
  have h1 : (~~~(BitVec.ofNat w x)).toNat = 2 ^ w - 1 - x := by
    rw [BitVec.toNat_not, hx]
  have h2 : ~~~(BitVec.ofNat w x) = BitVec.allOnes w ^^^ BitVec.ofNat w x := by
    ext i
    simp
  have h3 : (BitVec.allOnes w ^^^ BitVec.ofNat w x).toNat = (2 ^ w - 1) ^^^ x := by
    rw [BitVec.toNat_xor, BitVec.toNat_allOnes, hx]
  rw [← h3, ← h2, h1]

/-- `((!0) ^ x) + 1` on a `w`-bit unsigned value is the two's-complement
negation `(2^w - x) mod 2^w`. -/
theorem wrapU_negate_eq (w : Nat) (x : Int) (h0 : 0 ≤ x) (hx : x < (2 : Int) ^ w) :
    wrapU w ((((2 ^ w - 1) ^^^ x.toNat : Nat) : Int) + 1) =
      ((2 : Int) ^ w - x) % (2 : Int) ^ w := by
  have hc : ((2 ^ w : Nat) : Int) = (2 : Int) ^ w := cast_two_pow w
  have hxn : x.toNat < 2 ^ w := by omega
  rw [two_pow_sub_one_xor w x.toNat hxn]
  unfold wrapU
  congr 1
  omega

/-! ### Claim theorems -/

/-- C10: `load_index_int` dispatches through a `Named` wrapper to the
inner container, while `load_index` has no `Named` arm and falls into the
`unreachable!()` branch for every `Named` value. -/
theorem named_index_dispatch (inner : GosValue) (m : Nat) (i : Nat) (ind : GosValue) :
    GosValue.load_index_int (GosValue.Named inner m) i = GosValue.load_index_int inner i ∧
    GosValue.load_index (GosValue.Named inner m) ind = RtResult.panic :=
  ⟨rfl, rfl⟩

/-- C2 counterexample: `copy_semantic` leaves an `Array`'s wrapper (and so
its refcount cell) shared — the allocation counter does not advance and the
identity `0` is kept — while a `Slice` does receive a fresh wrapper, both
contrary to the claim that exactly `Struct` and `Array` receive fresh
wrappers. -/
theorem copy_semantic_array_shares_counterexample :
    GosValue.copy_semantic (GosValue.Array 0 []) 5 = (GosValue.Array 0 [], 5) ∧
    GosValue.copy_semantic (GosValue.Slice 0 [] false) 5 =
      (GosValue.Slice 5 [] false, 6) :=
  ⟨rfl, rfl⟩

/-- C2 (amended): `copy_semantic` always succeeds; exactly `Slice`, `Map`
and `Struct` receive a fresh wrapper with a fresh refcount cell (the new
identity differs from the old when the old identities pre-date the
allocation counter), `Named` recurses into its inner value, and every
other variant — `Array` included — is returned as a plain clone sharing the
original backing object. -/
theorem copy_semantic_characterization (v : GosValue) (ctr : Nat)
    (hf : ∀ i, v.topRcId = some i → i < ctr) :
    (∀ id elems n, v = GosValue.Slice id elems n →
        v.copy_semantic ctr = (GosValue.Slice ctr elems n, ctr + 1) ∧ ctr ≠ id) ∧
    (∀ id entries dval n, v = GosValue.Map id entries dval n →
        v.copy_semantic ctr = (GosValue.Map ctr entries dval n, ctr + 1) ∧ ctr ≠ id) ∧
    (∀ id fields, v = GosValue.Struct id fields →
        v.copy_semantic ctr = (GosValue.Struct ctr fields, ctr + 1) ∧ ctr ≠ id) ∧
    (∀ w m, v = GosValue.Named w m →
        v.copy_semantic ctr = (GosValue.Named (w.copy_semantic ctr).1 m,
          (w.copy_semantic ctr).2)) ∧
    (v.sharesOnCopy = true → v.copy_semantic ctr = (v, ctr)) := by
  refine ⟨?_, ?_, ?_, ?_, ?_⟩
  · rintro id elems n rfl
    refine ⟨rfl, ?_⟩
    have := hf id rfl
    omega
  · rintro id entries dval n rfl
    refine ⟨rfl, ?_⟩
    have := hf id rfl
    omega
  · rintro id fields rfl
    refine ⟨rfl, ?_⟩
    have := hf id rfl
    omega
  · rintro w m rfl
    rfl
  · intro hs
    cases v <;> first | rfl | simp [GosValue.sharesOnCopy] at hs

/-- C2 witness: the characterization applied to a concrete slice whose
wrapper identity pre-dates the allocation counter. -/
theorem copy_semantic_characterization_witness :
    GosValue.copy_semantic (GosValue.Slice 0 [] false) 1 =
      (GosValue.Slice 1 [] false, 2) ∧ (1 : Nat) ≠ 0 :=
  (copy_semantic_characterization (GosValue.Slice 0 [] false) 1
    (by intro i h; simp [GosValue.topRcId] at h; omega)).1 0 [] false rfl

/-- C3 counterexample: indexing the string "abc" at 0 succeeds but
produces a `GosValue::Int`, not a `uint8`, in both `load_index` and
`load_index_int`. -/
theorem string_index_returns_int_counterexample :
    GosValue.load_index (GosValue.Str [97, 98, 99]) (GosValue.Int 0) =
      RtResult.ok (GosValue.Int 97) ∧
    GosValue.load_index_int (GosValue.Str [97, 98, 99]) 0 =
      RtResult.ok (GosValue.Int 97) ∧
    (GosValue.Int 97).typ ≠ ValueType.Uint8 :=
  ⟨rfl, rfl, by decide⟩

/-- C3 (amended): for a string value, `load_index` and `load_index_int`
return a `GosValue::Int` (not a `uint8`) holding the i-th byte when the
index is within the string's byte length, and the error message
"index i out of range" when it is not. -/
theorem string_index_amended (s : List Nat) (i : Nat) :
    (∀ b, s[i]? = some b →
        GosValue.load_index (GosValue.Str s) (GosValue.Uint i) =
          RtResult.ok (GosValue.Int (Int.ofNat b)) ∧
        GosValue.load_index_int (GosValue.Str s) i =
          RtResult.ok (GosValue.Int (Int.ofNat b))) ∧
    (s[i]? = none →
        GosValue.load_index (GosValue.Str s) (GosValue.Uint i) =
          RtResult.err ("index " ++ toString i ++ " out of range") ∧
        GosValue.load_index_int (GosValue.Str s) i =
          RtResult.err ("index " ++ toString i ++ " out of range")) := by
  constructor
  · intro b hb
    constructor
    · simp [GosValue.load_index, GosValue.as_index, hb]
    · simp [GosValue.load_index_int, hb]
  · intro hb
    constructor
    · simp [GosValue.load_index, GosValue.as_index, hb]
    · simp [GosValue.load_index_int, hb]

/-- C3 witness: the amended statement applied to the concrete string
"abc", in bounds at index 1 and out of bounds at index 3. -/
theorem string_index_amended_witness :
    GosValue.load_index (GosValue.Str [97, 98, 99]) (GosValue.Uint 1) =
      RtResult.ok (GosValue.Int (Int.ofNat 98)) ∧
    GosValue.load_index_int (GosValue.Str [97, 98, 99]) 3 =
      RtResult.err ("index " ++ toString 3 ++ " out of range") :=
  ⟨((string_index_amended [97, 98, 99] 1).1 98 rfl).1,
   ((string_index_amended [97, 98, 99] 3).2 rfl).2⟩

/-- C8: the code violates the equality-determinism law at floating-point
zeros: `+0.0` (bits 0) and `-0.0` (bits `2^63`) are equal under the
`ordered_float` equality used by `PartialEq`, but `Hash` writes the raw
IEEE bit patterns (`to_bits`), so the two values feed different data to
the hasher. -/
theorem float_eq_hash_divergence :
    gosEq (GosValue.Float64 0) (GosValue.Float64 (2 ^ 63)) = true ∧
    gosHash (GosValue.Float64 0) ≠ gosHash (GosValue.Float64 (2 ^ 63)) := by
  constructor
  · rw [gosEq.eq_def]
    decide
  · rw [gosHash.eq_def, gosHash.eq_def]
    decide

/-- An `unwrap_or(0)` over a checked result is zero exactly from the
checked condition's failure. -/
theorem checked_getD (w : Nat) (b : Nat) (z : Int) :
    (if b < w then some z else none).getD 0 = if w ≤ b then 0 else z := by
  rcases Nat.lt_or_ge b w with h | h
  · simp [h, Nat.not_le.2 h]
  · simp [Nat.not_lt.2 h, h]

/-- C4: every scalar value round-trips through the unboxed 64-bit cell:
`from_v128` succeeds, and `get_v128` at the value's own `ValueType`
restores the value unchanged. -/
theorem v64_roundtrip (v : GosValue) (h : v.isV64Scalar = true) :
    ∃ w, GosValue64.from_v128 v = some w ∧ w.get_v128 v.typ = some v := by
  cases v <;> simp [GosValue.isV64Scalar] at h <;>
    (refine ⟨_, rfl, ?_⟩
     simp [GosValue64.get_v128, GosValue.typ])

/-- C4 witness: the round-trip at `Int 5`. -/
theorem v64_roundtrip_witness :
    (GosValue.Int 5).isV64Scalar = true ∧
    ∃ w, GosValue64.from_v128 (GosValue.Int 5) = some w ∧
      w.get_v128 (GosValue.Int 5).typ = some (GosValue.Int 5) :=
  ⟨rfl, v64_roundtrip (GosValue.Int 5) rfl⟩

/-- C5: for every integer `ValueType`, the V64 `ADD`, `SUB`, `MUL` and
`QUO` operations compute the wrap of the exact two's-complement result
modulo `2^w` (`QUO` for a nonzero divisor, wrapping the truncated
quotient); in particular adding `1` to the type's maximum value yields its
minimum value. -/
theorem v64_wrapping_arith (t : ValueType) (ht : isIntVT t = true) (x y : Int) :
    GosValue64.binary_op_add (mkV64 t x) (mkV64 t y) t =
      some (mkV64 t (intWrap t (x + y))) ∧
    GosValue64.binary_op_sub (mkV64 t x) (mkV64 t y) t =
      some (mkV64 t (intWrap t (x - y))) ∧
    GosValue64.binary_op_mul (mkV64 t x) (mkV64 t y) t =
      some (mkV64 t (intWrap t (x * y))) ∧
    (y ≠ 0 → GosValue64.binary_op_quo (mkV64 t x) (mkV64 t y) t =
      some (mkV64 t (intWrap t (x.tdiv y)))) ∧
    GosValue64.binary_op_add (mkV64 t (vtMax t)) (mkV64 t 1) t =
      some (mkV64 t (vtMin t)) := by
  cases t <;> simp only [isIntVT] at ht <;> try exact absurd ht (by decide)
  all_goals
    refine ⟨?_, ?_, ?_, ?_, ?_⟩ <;>
      first
      | (intro hy
         simp [GosValue64.binary_op_quo, mkV64, intWrap, vtSigned, vtWidth, hy])
      | (simp [GosValue64.binary_op_add, GosValue64.binary_op_sub, GosValue64.binary_op_mul,
          binary_op_int_float, mkV64, intWrap, vtSigned, vtWidth, vtMax, vtMin] <;>
         try decide)

/-- C5 witness: `Int8` arithmetic at `100` and `3`, with the nonzero
divisor discharged. -/
theorem v64_wrapping_arith_witness :
    isIntVT ValueType.Int8 = true ∧
    GosValue64.binary_op_add (mkV64 ValueType.Int8 100) (mkV64 ValueType.Int8 3)
      ValueType.Int8 = some (mkV64 ValueType.Int8 (intWrap ValueType.Int8 (100 + 3))) ∧
    GosValue64.binary_op_quo (mkV64 ValueType.Int8 100) (mkV64 ValueType.Int8 3)
      ValueType.Int8 =
      some (mkV64 ValueType.Int8 (intWrap ValueType.Int8 (Int.tdiv 100 3))) ∧
    GosValue64.binary_op_add (mkV64 ValueType.Int8 (vtMax ValueType.Int8))
      (mkV64 ValueType.Int8 1) ValueType.Int8 =
      some (mkV64 ValueType.Int8 (vtMin ValueType.Int8)) :=
  ⟨rfl,
   (v64_wrapping_arith ValueType.Int8 rfl 100 3).1,
   (v64_wrapping_arith ValueType.Int8 rfl 100 3).2.2.2.1 (by decide),
   (v64_wrapping_arith ValueType.Int8 rfl 100 3).2.2.2.2⟩

/-- C6: for every integer `ValueType` and every shift amount `b`, the V64
`SHL`/`SHR` operations store zero into the operand when `b` reaches the
bit width, and the ordinary left shift (value wrapped modulo `2^w`) or
arithmetic/logical right shift (floor division by `2^b`) otherwise. -/
theorem v64_checked_shift (t : ValueType) (ht : isIntVT t = true) (x : Int) (b : Nat) :
    GosValue64.binary_op_shl (mkV64 t x) b t =
      some (mkV64 t (if vtWidth t ≤ b then 0 else intWrap t (x * 2 ^ b))) ∧
    GosValue64.binary_op_shr (mkV64 t x) b t =
      some (mkV64 t (if vtWidth t ≤ b then 0 else Int.fdiv x (2 ^ b))) := by
  cases t <;> simp only [isIntVT] at ht <;> try exact absurd ht (by decide)
  all_goals
    constructor <;>
      simp [GosValue64.binary_op_shl, GosValue64.binary_op_shr, mkV64, checkedShlS,
        checkedShlU, checkedShrS, checkedShrU, checked_getD, intWrap, vtSigned, vtWidth]

/-- C6 witness: `Uint8` shifts at `x = 3`, in range with `b = 2` and out of
range with `b = 8`. -/
theorem v64_checked_shift_witness :
    GosValue64.binary_op_shl (mkV64 ValueType.Uint8 3) 2 ValueType.Uint8 =
      some (mkV64 ValueType.Uint8 (if vtWidth ValueType.Uint8 ≤ 2 then 0
        else intWrap ValueType.Uint8 (3 * 2 ^ 2))) ∧
    GosValue64.binary_op_shr (mkV64 ValueType.Uint8 3) 8 ValueType.Uint8 =
      some (mkV64 ValueType.Uint8 (if vtWidth ValueType.Uint8 ≤ 8 then 0
        else Int.fdiv 3 (2 ^ 8))) :=
  ⟨(v64_checked_shift ValueType.Uint8 rfl 3 2).1,
   (v64_checked_shift ValueType.Uint8 rfl 3 8).2⟩

/-- C7 counterexample: `UintPtr` is an unsigned integer `ValueType` (the
V64 add/sub/mul/quo and shift dispatchers all have a `uint_ptr` arm), yet
`unary_negate` has no `UintPtr` arm, so negating a `uintptr` falls into
the `unreachable!()` branch rather than computing `(!x)+1`. -/
theorem unary_negate_uintptr_counterexample :
    isUnsignedVT ValueType.UintPtr = true ∧
    GosValue64.binary_op_add (mkV64 ValueType.UintPtr 1) (mkV64 ValueType.UintPtr 1)
      ValueType.UintPtr = some (mkV64 ValueType.UintPtr 2) ∧
    GosValue64.unary_negate (mkV64 ValueType.UintPtr 1) ValueType.UintPtr = none := by
  refine ⟨rfl, ?_, rfl⟩
  simp [GosValue64.binary_op_add, binary_op_int_float, mkV64, wrapU]

/-- C7 (amended): for every unsigned integer `ValueType` of width `w`
other than `UintPtr` (whose arm is missing from `unary_negate`), and every
in-range value `x` (including `x = 0`), `unary_negate` computes
`((!0) ^ x) + 1`, which equals the two's-complement negation
`(2^w - x) mod 2^w`, and always produces a result. -/
theorem v64_unary_negate_unsigned (t : ValueType) (ht : isUnsignedVT t = true)
    (hp : t ≠ ValueType.UintPtr)
    (x : Int) (h0 : 0 ≤ x) (hx : x < (2 : Int) ^ vtWidth t) :
    GosValue64.unary_negate (mkV64 t x) t =
      some (mkV64 t (((2 : Int) ^ vtWidth t - x) % (2 : Int) ^ vtWidth t)) := by
  cases t <;> simp only [isUnsignedVT] at ht <;> try exact absurd ht (by decide)
  case UintPtr => exact absurd rfl hp
  all_goals
    simp only [vtWidth] at hx
    simp only [GosValue64.unary_negate, mkV64, vtWidth]
    rw [wrapU_negate_eq _ x h0 hx]

/-- C7 witness: negating `Uint8` zero neither traps nor leaves the range:
the result is `(2^8 - 0) mod 2^8 = 0`. -/
theorem v64_unary_negate_unsigned_witness :
    GosValue64.unary_negate (mkV64 ValueType.Uint8 0) ValueType.Uint8 =
      some (mkV64 ValueType.Uint8
        (((2 : Int) ^ vtWidth ValueType.Uint8 - 0) % (2 : Int) ^ vtWidth ValueType.Uint8)) ∧
    ((2 : Int) ^ vtWidth ValueType.Uint8 - 0) % (2 : Int) ^ vtWidth ValueType.Uint8 = 0 :=
  ⟨v64_unary_negate_unsigned ValueType.Uint8 rfl (by decide) 0 (by decide) (by decide),
   by decide⟩

/-- C1: on both the assignment path (`gen_assign_def_var`) and the return
path (`visit_stmt_return`), a store into a slot whose underlying type is
an interface is preceded by exactly one
`CAST(Interface, source_type, -, offset, iface_index)` when the source's
underlying type is neither an interface nor nil, the interface index being
interned from the (target, source) pair; and for an interface-to-interface
move no cast is emitted — the store is appended alone. -/
theorem iface_cast_on_store_and_return (tl : TypeLookup) (st : EmitState)
    (t0 t1 : Nat) (rhs_index i : Int) (lhs : LeftHandSide)
    (h0 : tl.underlying_value_type_from_tc t0 = ValueType.Interface) :
    (tl.underlying_value_type_from_tc t1 ≠ ValueType.Interface →
     tl.underlying_value_type_from_tc t1 ≠ ValueType.Nil →
      gen_assign_store_primitive tl st (some t0) t1 rhs_index lhs =
        ⟨st.code ++
          [Instr.CAST ValueType.Interface (tl.underlying_value_type_from_tc t1) none
            rhs_index (st.iface_mapping.get_index (t0, some t1)).2,
           Instr.STORE lhs rhs_index ValueType.Interface],
         (st.iface_mapping.get_index (t0, some t1)).1⟩ ∧
      gen_return_store tl st t0 t1 i =
        ⟨st.code ++
          [Instr.CAST ValueType.Interface (tl.underlying_value_type_from_tc t1) none
            (-1) (st.iface_mapping.get_index (t0, some t1)).2,
           Instr.STORE (LeftHandSide.Primitive (EntIndex.LocalVar i)) (-1)
             ValueType.Interface,
           Instr.POP 1],
         (st.iface_mapping.get_index (t0, some t1)).1⟩) ∧
    (tl.underlying_value_type_from_tc t1 = ValueType.Interface →
      gen_assign_store_primitive tl st (some t0) t1 rhs_index lhs =
        ⟨st.code ++ [Instr.STORE lhs rhs_index (tl.value_type_from_tc t1)],
         st.iface_mapping⟩ ∧
      gen_return_store tl st t0 t1 i =
        ⟨st.code ++
          [Instr.STORE (LeftHandSide.Primitive (EntIndex.LocalVar i)) (-1)
            (tl.value_type_from_tc t1),
           Instr.POP 1],
         st.iface_mapping⟩) := by
  constructor
  · intro h1 h2
    constructor <;>
      simp [gen_assign_store_primitive, gen_return_store, try_cast_to_iface, h0, h1, h2]
  · intro h1
    constructor <;>
      simp [gen_assign_store_primitive, gen_return_store, try_cast_to_iface, h0, h1]

/-- C1 witness: with TC key 0 underlying to an interface and key 1 to
`Int`, storing source 1 emits a `CAST` followed by the `STORE`
(interning the pair at index 0), and storing source 0 (interface to
interface) emits the `STORE` alone. -/
theorem iface_cast_on_store_and_return_witness :
    gen_assign_store_primitive exTypeLookup exEmitState (some 0) 1 (-1)
      (LeftHandSide.Primitive EntIndex.Blank) =
      ⟨[Instr.CAST ValueType.Interface ValueType.Int none (-1) 0,
        Instr.STORE (LeftHandSide.Primitive EntIndex.Blank) (-1) ValueType.Interface],
       ⟨[(0, some 1)]⟩⟩ ∧
    gen_assign_store_primitive exTypeLookup exEmitState (some 0) 0 (-1)
      (LeftHandSide.Primitive EntIndex.Blank) =
      ⟨[Instr.STORE (LeftHandSide.Primitive EntIndex.Blank) (-1) ValueType.Interface],
       ⟨[]⟩⟩ := by
  constructor
  · exact (((iface_cast_on_store_and_return exTypeLookup exEmitState 0 1 (-1) 0
      (LeftHandSide.Primitive EntIndex.Blank) (by decide)).1 (by decide) (by decide)).1).trans
      (by decide)
  · exact (((iface_cast_on_store_and_return exTypeLookup exEmitState 0 0 (-1) 0
      (LeftHandSide.Primitive EntIndex.Blank) (by decide)).2 (by decide)).1).trans
      (by decide)

/-- C9 counterexample: with functions `[ctor 0, f1, f2, f3]` on the stack,
entity 7 defined only in `f1`, resolving it from `f3` returns upvalue slot
0 and adds the descriptor `(func 1, slot 4)` to `f3`, but the intermediate
function `f2` receives no upvalue descriptor — its table stays empty,
contrary to the claim that every intermediate function gets one. -/
theorem resolve_upvalue_intermediate_counterexample :
    (resolve_var_ident exResolveState 7 42 ValueType.Int).2 = EntIndex.UpValue 0 ∧
    ((resolve_var_ident exResolveState 7 42 ValueType.Int).1.functions.getD 3
      emptyFunctionVal).up_ptrs = [ValueDesc.mk 1 4 ValueType.Int true] ∧
    ((resolve_var_ident exResolveState 7 42 ValueType.Int).1.functions.getD 2
      emptyFunctionVal).up_ptrs = [] := by
  decide

/-- C9 (amended): an identifier found in the current function resolves
there with no state change; an identifier found instead by the
enclosing-function walk (package constructor and current function
excluded, innermost first) has a single upvalue descriptor naming the
defining function and its slot added to the current function only — every
other function, the intermediates included, is left unchanged — and the
current function's upvalue slot is returned; an identifier found nowhere
resolves to a package member. -/
theorem resolve_var_ident_characterization (st : CodeGenState) (ent ident : Nat)
    (vt : ValueType) :
    (∀ idx,
      (st.functions.getD st.func_stack.getLast! emptyFunctionVal).entity_index ent =
        some idx →
      resolve_var_ident st ent ident vt = (st, idx)) ∧
    ((st.functions.getD st.func_stack.getLast! emptyFunctionVal).entity_index ent = none →
      (∀ uv, upvalueWalk st ent vt = some uv →
        resolve_var_ident st ent ident vt =
          ({ st with
              functions := st.functions.set st.func_stack.getLast!
                ((st.functions.getD st.func_stack.getLast! emptyFunctionVal).try_add_upvalue
                  ent uv).1 },
           ((st.functions.getD st.func_stack.getLast! emptyFunctionVal).try_add_upvalue
              ent uv).2) ∧
        (∀ k, k ≠ st.func_stack.getLast! →
          (resolve_var_ident st ent ident vt).1.functions.getD k emptyFunctionVal =
            st.functions.getD k emptyFunctionVal)) ∧
      (upvalueWalk st ent vt = none →
        resolve_var_ident st ent ident vt =
          (st, EntIndex.PackageMember st.pkg_key ident))) := by
  refine ⟨?_, fun hn => ⟨fun uv hu => ⟨?_, ?_⟩, fun hw => ?_⟩⟩
  · intro idx hidx
    simp only [List.getD, List.get?_eq_getElem?] at hidx
    simp [resolve_var_ident, hidx]
  · simp only [List.getD, List.get?_eq_getElem?] at hn
    simp [resolve_var_ident, hn, hu]
  · intro k hk
    simp only [List.getD, List.get?_eq_getElem?] at hn
    simp [resolve_var_ident, List.getD, hn, hu]
    rw [List.getElem?_set_ne (by omega)]
  · simp only [List.getD, List.get?_eq_getElem?] at hn
    simp [resolve_var_ident, hn, hw]

/-- C9 witness: the characterization applied to the concrete four-function
state, with the walk hitting function 1. -/
theorem resolve_var_ident_characterization_witness :
    (resolve_var_ident exResolveState 7 42 ValueType.Int).2 = EntIndex.UpValue 0 ∧
    (resolve_var_ident exResolveState 7 42 ValueType.Int).1.functions.getD 2
      emptyFunctionVal = exResolveState.functions.getD 2 emptyFunctionVal := by
  have h := ((resolve_var_ident_characterization exResolveState 7 42 ValueType.Int).2
    (by decide)).1 (ValueDesc.mk 1 4 ValueType.Int true) (by decide)
  refine ⟨?_, h.2 2 (by decide)⟩
  rw [h.1]
  decide

end Goscript
